import Mathlib

/-!
Shallow embedding of the Metanet scaffold's server-side authentication and
role handlers (Appwrite serverless functions), together with theorems
checking the natural-language specification against them.

Source files embedded here:
* the auth-or-register handler (users keyed by appPublicKey),
* the self-service grant-user-role handler (same users collection),
* the register-metanet-user handler and the authenticate handler
  (users keyed by bsvAddress).

Modelling conventions:
* JSON field values are Option-typed; absent and null are both none.
  JavaScript truthiness of a destructured field is truthyS / truthyI below
  (empty string and the number 0 are falsy).
* The users collection of the auth-or-register / grant-role handlers is the
  one declared by the setup script: attribute roles is an optional string
  holding a JSON array (modelled by its parsed list; the handlers parse it
  with a fallback to the empty array), attribute status is optional with
  schema default "active", and appPublicKey carries a unique index.
  createDocument therefore applies the status default and fails exactly when
  the unique appPublicKey index is violated.
* Timestamps (millis) are Int; new Date().toISOString() values recorded by
  a handler are represented by the current time value itself.
* Each handler is a pure function from (current time, request envelope,
  database state) to (response, database state). For the auth-or-register
  handler the database is passed twice: viewDb serves the reads
  (listDocuments) and effectDb the writes (create/update), so that a
  concurrent interleaving, where a second request's reads all happen before
  a first request's create lands, is expressed by giving the two arguments
  different snapshots. A sequential (single, atomic) run passes the same
  state for both.
-/

namespace MetanetScaffold

/-- JavaScript truthiness of an optional string field: absent, null and the
empty string are falsy. -/
def truthyS : Option String → Bool
  | none => false
  | some s => !(s == "")

/-- JavaScript truthiness of an optional numeric field: absent, null and 0
are falsy. -/
def truthyI : Option Int → Bool
  | none => false
  | some n => !(n == 0)

/-- The observable part of a handler's res.json reply: HTTP status, success
flag, error code when present, and the user fields the claims inspect. -/
structure Response where
  status : Nat
  success : Bool
  code : Option String := none
  isNewUser : Option Bool := none
  userId : Option Nat := none
  userRoles : Option (List String) := none
  userStatus : Option String := none
  userRole : Option String := none
  userIsActive : Option Bool := none
  deriving Repr, DecidableEq

/-- A document of the users collection used by the auth-or-register and
grant-user-role handlers (setup script schema: appPublicKey required with a
unique index; username, displayName, avatar, roles, status, metadata
optional; status has schema default "active"; the collection declares no
lastLogin attribute, the field is carried here to state that these handlers
never write one). The roles attribute stores a JSON array of role names and
is modelled by its parsed list. -/
structure UserDoc where
  id : Nat
  appPublicKey : String
  username : Option String
  displayName : Option String
  avatar : Option String
  roles : Option (List String)
  status : Option String
  lastLogin : Option Int
  metadata : Option String
  deriving Repr, DecidableEq

/-- State of the users collection, with the id counter backing ID.unique().
-/
structure Db where
  users : List UserDoc
  nextId : Nat
  deriving Repr, DecidableEq

/-- listDocuments with Query.equal on appPublicKey. -/
def Db.findByKey (db : Db) (k : String) : List UserDoc :=
  db.users.filter (fun u => u.appPublicKey == k)

/-- listDocuments with Query.equal on username (a null username never
matches an equality query). -/
def Db.findByUsername (db : Db) (uname : Option String) : List UserDoc :=
  db.users.filter (fun u => u.username == uname)

/-- createDocument into the users collection: enforces the unique index on
appPublicKey (the only unique index the setup script declares) and applies
the schema default status = "active" when the document carries none. Fails
with DuplicateKey (modelled as Except.error) on an index violation. -/
def Db.createUser (db : Db) (mk : Nat → UserDoc) : Except Unit (UserDoc × Db) :=
  let u0 := mk db.nextId
  let u := { u0 with status := match u0.status with
                               | none => some "active"
                               | some s => some s }
  if db.users.any (fun v => v.appPublicKey == u.appPublicKey) then
    Except.error ()
  else
    Except.ok (u, { users := db.users ++ [u], nextId := db.nextId + 1 })

/-- updateDocument by document id, replacing the matched document with the
given update of it. -/
def Db.updateById (db : Db) (i : Nat) (f : UserDoc → UserDoc) : Db :=
  { db with users := db.users.map (fun v => if v.id == i then f v else v) }

/-- user.userStatus or user.status or null, as built in the auth-or-register
response: the collection has no userStatus attribute, so the first
alternative is undefined and the chain reduces to status when truthy, else
null. -/
def statusField (s : Option String) : Option String :=
  match s with
  | none => none
  | some t => if t == "" then none else some t

/-- Request envelope of the auth-or-register handler (destructured fields of
its JSON body). -/
structure AuthEnv where
  appPublicKey : Option String
  username : Option String
  displayName : Option String
  avatar : Option String
  timestamp : Option Int
  signature : Option String
  deriving Repr, DecidableEq

/-- The auth-or-register handler. Reads (listDocuments) run against viewDb,
writes (createDocument / updateDocument) against effectDb; a sequential run
passes the same state twice (authOrRegisterRun). Mirrors the source: missing
required fields (by truthiness), then the symmetric 5-minute freshness
window, then (signature verification is an unimplemented TODO in the
source) the lookup by appPublicKey; on a hit it applies provided-and-different
profile-field updates only; on a miss it rejects a taken username, else
creates a user document carrying only appPublicKey, profile fields and
metadata. A DuplicateKey failure of createDocument propagates to the outer
catch, which answers 500 with code AUTH_ERROR. -/
def authOrRegister (now : Int) (env : AuthEnv) (viewDb effectDb : Db) :
    Response × Db :=
  if !(truthyS env.appPublicKey && truthyI env.timestamp &&
       truthyS env.signature) then
    ({ status := 400, success := false, code := some "MISSING_FIELDS" },
     effectDb)
  else
    let ts := env.timestamp.getD 0
    if 300000 < (now - ts).natAbs then
      ({ status := 400, success := false, code := some "EXPIRED_REQUEST" },
       effectDb)
    else
      let k := env.appPublicKey.getD ""
      match viewDb.findByKey k with
      | u :: _ =>
        let updU := truthyS env.username && !(env.username == u.username)
        let updD := truthyS env.displayName &&
                    !(env.displayName == u.displayName)
        let updA := truthyS env.avatar && !(env.avatar == u.avatar)
        let u' : UserDoc :=
          { u with
            username := if updU then env.username else u.username,
            displayName := if updD then env.displayName else u.displayName,
            avatar := if updA then env.avatar else u.avatar }
        let db' := if updU || updD || updA then
                     effectDb.updateById u.id (fun v =>
                       { v with
                         username := if updU then env.username else v.username,
                         displayName :=
                           if updD then env.displayName else v.displayName,
                         avatar := if updA then env.avatar else v.avatar })
                   else effectDb
        ({ status := 200, success := true, isNewUser := some false,
           userId := some u'.id, userRoles := u'.roles,
           userStatus := statusField u'.status }, db')
      | [] =>
        if truthyS env.username &&
           !(viewDb.findByUsername env.username).isEmpty then
          ({ status := 409, success := false,
             code := some "USERNAME_TAKEN" }, effectDb)
        else
          match effectDb.createUser (fun i =>
            { id := i, appPublicKey := k,
              username := if truthyS env.username then env.username else none,
              displayName :=
                if truthyS env.displayName then env.displayName else none,
              avatar := if truthyS env.avatar then env.avatar else none,
              roles := none, status := none, lastLogin := none,
              metadata := some "\x7b\x7d" }) with
          | Except.error _ =>
            ({ status := 500, success := false, code := some "AUTH_ERROR" },
             effectDb)
          | Except.ok (u, db') =>
            ({ status := 200, success := true, isNewUser := some true,
               userId := some u.id, userRoles := u.roles,
               userStatus := statusField u.status }, db')

/-- A sequential, atomic run of the auth-or-register handler: reads and
writes see the same database state. -/
def authOrRegisterRun (now : Int) (env : AuthEnv) (db : Db) :
    Response × Db :=
  authOrRegister now env db db

/-- Request envelope of the self-service grant-user-role handler. -/
structure GrantEnv where
  appPublicKey : Option String
  role : Option String
  timestamp : Option Int
  signature : Option String
  deriving Repr, DecidableEq

/-- The roles the grant-user-role handler accepts. -/
def validRoles : List String := ["admin", "moderator", "user"]

/-- Whether any user document in the collection holds the admin role (the
handler's scan of all users, parsing each roles attribute with fallback to
the empty array). -/
def hasExistingAdmin (db : Db) : Bool :=
  db.users.any (fun v => (v.roles.getD []).contains "admin")

/-- The self-service grant-user-role handler. Mirrors the source: missing
required fields, then role validity, then the 5-minute freshness window,
then (signature verification is a TODO in the source) lookup of the caller
by appPublicKey (404 USER_NOT_FOUND on a miss); the caller's roles array is
parsed with fallback to empty; if an admin exists anywhere and the caller is
not an admin the request is rejected 403 UNAUTHORIZED; otherwise the
requested role is appended when absent and the caller's document is updated
with the new roles array and status active. -/
def grantUserRole (now : Int) (env : GrantEnv) (db : Db) : Response × Db :=
  if !(truthyS env.appPublicKey && truthyS env.role &&
       truthyI env.timestamp && truthyS env.signature) then
    ({ status := 400, success := false, code := some "MISSING_FIELDS" }, db)
  else
    let role := env.role.getD ""
    if !(validRoles.contains role) then
      ({ status := 400, success := false, code := some "INVALID_ROLE" }, db)
    else if 300000 < (now - env.timestamp.getD 0).natAbs then
      ({ status := 400, success := false, code := some "EXPIRED_REQUEST" },
       db)
    else
      match db.findByKey (env.appPublicKey.getD "") with
      | [] =>
        ({ status := 404, success := false, code := some "USER_NOT_FOUND" },
         db)
      | u :: _ =>
        let rolesArray := u.roles.getD []
        let isCurrentUserAdmin := rolesArray.contains "admin"
        if hasExistingAdmin db && !isCurrentUserAdmin then
          ({ status := 403, success := false, code := some "UNAUTHORIZED" },
           db)
        else
          let rolesArray' := if rolesArray.contains role then rolesArray
                             else rolesArray ++ [role]
          let db' := db.updateById u.id (fun v =>
            { v with roles := some rolesArray', status := some "active" })
          ({ status := 200, success := true, userId := some u.id,
             userRoles := some rolesArray', userStatus := some "active" },
           db')

/-- Request envelope of the register-metanet-user handler. -/
structure RegEnv where
  bsvAddress : Option String
  appPublicKey : Option String
  rootPrincipal : Option String
  username : Option String
  displayName : Option String
  avatar : Option String
  timestamp : Option Int
  signature : Option String
  deriving Repr, DecidableEq

/-- A document of the users collection used by the register-metanet-user and
authenticate handlers (bsvAddress as primary identifier; role is a single
string; isActive a boolean; lastLogin a datetime, represented by the millis
value the handler observed; the registration metadata JSON blob is not
modelled, no claim inspects it). -/
structure RegUser where
  id : Nat
  bsvAddress : String
  appPublicKey : String
  metanetPrincipal : String
  bsvPublicKey : String
  username : String
  displayName : String
  avatar : String
  bio : String
  role : String
  isActive : Bool
  lastLogin : Option Int
  deriving Repr, DecidableEq

/-- A document of the roles collection as created by the register handler's
default role assignment. -/
structure RoleGrant where
  userPrincipal : String
  roleName : String
  permissions : List String
  grantedBy : String
  grantedAt : Int
  deriving Repr, DecidableEq

/-- State of the collections the register and authenticate handlers touch.
-/
structure RegDb where
  users : List RegUser
  roleGrants : List RoleGrant
  nextId : Nat
  deriving Repr, DecidableEq

/-- listDocuments with Query.equal on bsvAddress. -/
def RegDb.findByAddress (db : RegDb) (a : String) : List RegUser :=
  db.users.filter (fun u => u.bsvAddress == a)

/-- listDocuments with Query.equal on appPublicKey. -/
def RegDb.findByKey (db : RegDb) (k : String) : List RegUser :=
  db.users.filter (fun u => u.appPublicKey == k)

/-- The register-metanet-user handler, parameterized over the
VITE_DEFAULT_ROLE environment variable (the source falls back to "user"
when it is unset or empty). Mirrors the source: missing required fields,
the symmetric 5-minute freshness window, then (the signature verification
is an unimplemented TODO: the source trusts the signature parameter) the
duplicate checks by bsvAddress (409 ADDRESS_EXISTS) and appPublicKey
(409 KEY_EXISTS), then creation of the user document with the default role,
isActive true and lastLogin now, plus the default role-assignment document,
answering 201 with isNewUser true. -/
def register (now : Int) (defaultRoleEnv : Option String) (env : RegEnv)
    (db : RegDb) : Response × RegDb :=
  if !(truthyS env.bsvAddress && truthyS env.appPublicKey &&
       truthyS env.signature && truthyI env.timestamp) then
    ({ status := 400, success := false, code := some "MISSING_FIELDS" }, db)
  else if 300000 < (now - env.timestamp.getD 0).natAbs then
    ({ status := 400, success := false, code := some "EXPIRED_REQUEST" },
     db)
  else
    let addr := env.bsvAddress.getD ""
    match db.findByAddress addr with
    | u :: _ =>
      ({ status := 409, success := false, code := some "ADDRESS_EXISTS",
         userId := some u.id }, db)
    | [] =>
      let k := env.appPublicKey.getD ""
      if !(db.findByKey k).isEmpty then
        ({ status := 409, success := false, code := some "KEY_EXISTS" }, db)
      else
        let drole := if truthyS defaultRoleEnv then defaultRoleEnv.getD ""
                     else "user"
        let newUser : RegUser :=
          { id := db.nextId, bsvAddress := addr, appPublicKey := k,
            metanetPrincipal := env.rootPrincipal.getD "",
            bsvPublicKey := "",
            username := env.username.getD "",
            displayName := env.displayName.getD "",
            avatar := env.avatar.getD "",
            bio := "", role := drole, isActive := true,
            lastLogin := some now }
        let grant : RoleGrant :=
          { userPrincipal := addr, roleName := drole,
            permissions := ["read:own", "write:own", "delete:own"],
            grantedBy := "system", grantedAt := now }
        ({ status := 201, success := true, isNewUser := some true,
           userId := some newUser.id,
           userRole := some newUser.role,
           userIsActive := some newUser.isActive },
         { users := db.users ++ [newUser],
           roleGrants := db.roleGrants ++ [grant],
           nextId := db.nextId + 1 })

/-- Request envelope of the authenticate handler. -/
structure AuthnEnv where
  bsvAddress : Option String
  appPublicKey : Option String
  timestamp : Option Int
  signature : Option String
  deriving Repr, DecidableEq

/-- The authenticate handler. Mirrors the source: missing required fields,
the symmetric 5-minute freshness window, then (signature verification is a
TODO in the source) lookup by bsvAddress; unknown addresses answer 404
USER_NOT_FOUND; a stored appPublicKey differing from the claimed one
answers 401 INVALID_KEY; otherwise the document's lastLogin is updated to
the current time and the handler answers 200 with isNewUser false. -/
def authenticate (now : Int) (env : AuthnEnv) (db : RegDb) :
    Response × RegDb :=
  if !(truthyS env.bsvAddress && truthyS env.appPublicKey &&
       truthyI env.timestamp && truthyS env.signature) then
    ({ status := 400, success := false, code := some "MISSING_FIELDS" }, db)
  else if 300000 < (now - env.timestamp.getD 0).natAbs then
    ({ status := 400, success := false, code := some "EXPIRED_REQUEST" },
     db)
  else
    match db.findByAddress (env.bsvAddress.getD "") with
    | [] =>
      ({ status := 404, success := false, code := some "USER_NOT_FOUND" },
       db)
    | u :: _ =>
      if !(u.appPublicKey == env.appPublicKey.getD "") then
        ({ status := 401, success := false, code := some "INVALID_KEY" },
         db)
      else
        ({ status := 200, success := true, isNewUser := some false,
           userId := some u.id, userRole := some u.role,
           userIsActive := some u.isActive },
         { db with users := db.users.map (fun v =>
             if v.id == u.id then { v with lastLogin := some now }
             else v) })

/-! Concrete request envelopes and database states used to exercise the
handlers at specific inputs. -/

/-- An empty users collection. -/
def dbEmpty : Db := { users := [], nextId := 0 }

/-- Empty users and roles collections for the register / authenticate
handlers. -/
def regDbEmpty : RegDb := { users := [], roleGrants := [], nextId := 0 }

/-- A well-formed registration envelope whose signature is an arbitrary
string that no verifier could accept. -/
def regEnvGarbageSig : RegEnv :=
  { bsvAddress := some "addr1", appPublicKey := some "pk1",
    rootPrincipal := none, username := none, displayName := none,
    avatar := none, timestamp := some 1000, signature := some "garbage" }

/-- A well-formed auth-or-register envelope. -/
def authEnvA : AuthEnv :=
  { appPublicKey := some "pk1", username := some "alice",
    displayName := none, avatar := none, timestamp := some 1000,
    signature := some "sig" }

/-- An auth-or-register envelope without optional profile fields. -/
def authEnvBare : AuthEnv :=
  { appPublicKey := some "pk1", username := none, displayName := none,
    avatar := none, timestamp := some 1000, signature := some "sig" }

/-- An auth-or-register envelope whose timestamp sits just outside the
5-minute window relative to server time 1000000 (difference 300001 ms). -/
def authEnvStale : AuthEnv :=
  { appPublicKey := some "pk1", username := none, displayName := none,
    avatar := none, timestamp := some 699999, signature := some "sig" }

/-- An auth-or-register envelope whose timestamp sits just inside the
5-minute window relative to server time 1000000 (difference 299999 ms). -/
def authEnvNear : AuthEnv :=
  { appPublicKey := some "pk1", username := none, displayName := none,
    avatar := none, timestamp := some 700001, signature := some "sig" }

/-- A user document holding no roles value, as the auth-or-register
registration path creates them. -/
def userNoRoles : UserDoc :=
  { id := 0, appPublicKey := "pk1", username := some "alice",
    displayName := none, avatar := none, roles := none,
    status := some "active", lastLogin := none,
    metadata := some "\x7b\x7d" }

/-- A second user document holding the admin role. -/
def userOtherAdmin : UserDoc :=
  { id := 1, appPublicKey := "pk2", username := some "bob",
    displayName := none, avatar := none, roles := some ["admin"],
    status := some "active", lastLogin := none,
    metadata := some "\x7b\x7d" }

/-- The caller itself holding the admin role. -/
def userSelfAdmin : UserDoc :=
  { id := 0, appPublicKey := "pk1", username := some "alice",
    displayName := none, avatar := none, roles := some ["admin"],
    status := some "active", lastLogin := none,
    metadata := some "\x7b\x7d" }

/-- A user document under a different signing key that already holds the
username alice. -/
def userAliceOtherKey : UserDoc :=
  { id := 7, appPublicKey := "pk2", username := some "alice",
    displayName := none, avatar := none, roles := none,
    status := some "active", lastLogin := none,
    metadata := some "\x7b\x7d" }

/-- A registration envelope whose timestamp is 300001 ms before server
time 1000000. -/
def regEnvStale : RegEnv :=
  { bsvAddress := some "addr1", appPublicKey := some "pk1",
    rootPrincipal := none, username := none, displayName := none,
    avatar := none, timestamp := some 699999, signature := some "sig" }

/-- A self-service role-grant envelope asking for admin. -/
def grantEnvAdmin : GrantEnv :=
  { appPublicKey := some "pk1", role := some "admin",
    timestamp := some 1000, signature := some "sig" }

/-- An authenticate envelope matching the record regEnvGarbageSig creates.
-/
def authnEnvAddr1 : AuthnEnv :=
  { bsvAddress := some "addr1", appPublicKey := some "pk1",
    timestamp := some 2000, signature := some "sig" }

/-- The user document the auth-or-register registration path stores for an
envelope: only key, profile fields and metadata are supplied; the
collection's schema default fills status with active; no roles value is
written. -/
def createdDoc (env : AuthEnv) (i : Nat) : UserDoc :=
  { id := i, appPublicKey := env.appPublicKey.getD "",
    username := if truthyS env.username then env.username else none,
    displayName := if truthyS env.displayName then env.displayName else none,
    avatar := if truthyS env.avatar then env.avatar else none,
    roles := none, status := some "active", lastLogin := none,
    metadata := some "\x7b\x7d" }

/-- A user record as the register handler stores it for regEnvGarbageSig
at time 1000. -/
def regUserA : RegUser :=
  { id := 0, bsvAddress := "addr1", appPublicKey := "pk1",
    metanetPrincipal := "", bsvPublicKey := "", username := "",
    displayName := "", avatar := "", bio := "", role := "user",
    isActive := true, lastLogin := some 1000 }

/-! Helper lemmas shared by several claim theorems. -/

/-- When the truthiness conjunction of the required fields fails, the
auth-or-register handler answers 400 MISSING_FIELDS, leaves the write
snapshot untouched, and its reply does not depend on any database state. -/
theorem authOrRegister_missing (now : Int) (env : AuthEnv) (vdb edb : Db)
    (h : (truthyS env.appPublicKey && truthyI env.timestamp &&
          truthyS env.signature) = false) :
    authOrRegister now env vdb edb =
      ({ status := 400, success := false, code := some "MISSING_FIELDS" },
       edb) := by
  unfold authOrRegister
  rw [h]
  rfl

/-- When the truthiness conjunction of the required fields fails, the
register handler answers 400 MISSING_FIELDS and leaves the database
untouched. -/
theorem register_missing (now : Int) (d : Option String) (env : RegEnv)
    (db : RegDb)
    (h : (truthyS env.bsvAddress && truthyS env.appPublicKey &&
          truthyS env.signature && truthyI env.timestamp) = false) :
    register now d env db =
      ({ status := 400, success := false, code := some "MISSING_FIELDS" },
       db) := by
  unfold register
  rw [h]
  rfl

/-- A fresh, fully-populated envelope whose key is absent from the
directory and whose username (when supplied) is untaken drives the
auth-or-register handler through its registration path: it answers 200
with isNewUser true and appends exactly the document createdDoc. -/
theorem authOrRegister_creates (now : Int) (env : AuthEnv) (db : Db)
    (h1 : truthyS env.appPublicKey = true)
    (h2 : truthyI env.timestamp = true)
    (h3 : truthyS env.signature = true)
    (hfresh : (now - env.timestamp.getD 0).natAbs ≤ 300000)
    (hkey : db.findByKey (env.appPublicKey.getD "") = [])
    (huser : truthyS env.username = true →
      db.findByUsername env.username = []) :
    authOrRegisterRun now env db =
      ({ status := 200, success := true, isNewUser := some true,
         userId := some db.nextId, userRoles := none,
         userStatus := some "active" },
       { users := db.users ++ [createdDoc env db.nextId],
         nextId := db.nextId + 1 }) := by
  have hany : (db.users.any (fun v => v.appPublicKey ==
      env.appPublicKey.getD "")) = false := by
    by_contra hc
    rw [Bool.not_eq_false, List.any_eq_true] at hc
    obtain ⟨x, hx, hpx⟩ := hc
    have hmem : x ∈ db.findByKey (env.appPublicKey.getD "") :=
      List.mem_filter.mpr ⟨hx, hpx⟩
    rw [hkey] at hmem
    exact absurd hmem (List.not_mem_nil x)
  unfold authOrRegisterRun authOrRegister
  rw [h1, h2, h3]
  simp only [Bool.and_self, Bool.not_true, Bool.false_eq_true, if_false]
  rw [if_neg (by omega)]
  rw [hkey]
  have hcond : (truthyS env.username &&
      !(db.findByUsername env.username).isEmpty) = false := by
    cases hu : truthyS env.username with
    | false => simp
    | true => rw [huser hu]; simp
  rw [hcond]
  simp only [Bool.false_eq_true, if_false]
  simp [Db.createUser, hany, createdDoc, statusField]

/-- Replaying the very envelope that created a record lands on the Found
path with no profile difference: the handler answers success with
isNewUser false and leaves the database unchanged. -/
theorem authOrRegister_reauth_created (now : Int) (env : AuthEnv) (db : Db)
    (i : Nat) (rest : List UserDoc)
    (h1 : truthyS env.appPublicKey = true)
    (h2 : truthyI env.timestamp = true)
    (h3 : truthyS env.signature = true)
    (hfresh : (now - env.timestamp.getD 0).natAbs ≤ 300000)
    (hfind : db.findByKey (env.appPublicKey.getD "") =
      createdDoc env i :: rest) :
    authOrRegisterRun now env db =
      ({ status := 200, success := true, isNewUser := some false,
         userId := some i, userRoles := none,
         userStatus := some "active" }, db) := by
  unfold authOrRegisterRun authOrRegister
  rw [h1, h2, h3]
  simp only [Bool.and_self, Bool.not_true, Bool.false_eq_true, if_false]
  rw [if_neg (by omega)]
  rw [hfind]
  have hU : (truthyS env.username &&
      !(env.username == (createdDoc env i).username)) = false := by
    cases hu : truthyS env.username with
    | false => simp
    | true => simp [createdDoc, hu]
  have hD : (truthyS env.displayName &&
      !(env.displayName == (createdDoc env i).displayName)) = false := by
    cases hu : truthyS env.displayName with
    | false => simp
    | true => simp [createdDoc, hu]
  have hA : (truthyS env.avatar &&
      !(env.avatar == (createdDoc env i).avatar)) = false := by
    cases hu : truthyS env.avatar with
    | false => simp
    | true => simp [createdDoc, hu]
  simp only [hU, hD, hA, Bool.or_self, Bool.false_or,
    Bool.false_eq_true, if_false]
  simp [createdDoc, statusField]

/-- Any envelope that reaches the lookup and finds a record is answered
200, success, isNewUser false, whatever profile updates apply. -/
theorem authOrRegister_found_success (now : Int) (env : AuthEnv) (db : Db)
    (u : UserDoc) (rest : List UserDoc)
    (h1 : truthyS env.appPublicKey = true)
    (h2 : truthyI env.timestamp = true)
    (h3 : truthyS env.signature = true)
    (hfresh : (now - env.timestamp.getD 0).natAbs ≤ 300000)
    (hfind : db.findByKey (env.appPublicKey.getD "") = u :: rest) :
    (authOrRegisterRun now env db).1.success = true ∧
    (authOrRegisterRun now env db).1.isNewUser = some false ∧
    (authOrRegisterRun now env db).1.status = 200 := by
  unfold authOrRegisterRun authOrRegister
  rw [h1, h2, h3]
  simp only [Bool.and_self, Bool.not_true, Bool.false_eq_true, if_false]
  rw [if_neg (by omega)]
  rw [hfind]
  repeat' first | split | simp_all

/-- After the registration path appended createdDoc to a directory that
held no record for the key, looking the key up returns exactly that
document. -/
theorem findByKey_after_create (env : AuthEnv) (db : Db)
    (hkey : db.findByKey (env.appPublicKey.getD "") = []) :
    (Db.findByKey
      { users := db.users ++ [createdDoc env db.nextId],
        nextId := db.nextId + 1 } (env.appPublicKey.getD "")) =
      [createdDoc env db.nextId] := by
  unfold Db.findByKey at hkey ⊢
  rw [List.filter_append, hkey]
  simp [createdDoc]

/-- Whenever the auth-or-register lookup finds a record (the Found path),
the write snapshot keeps every document's id and lastLogin pair: the
handler updates at most profile fields and never a login timestamp. -/
theorem authOrRegister_keeps_lastLogin (now : Int) (env : AuthEnv)
    (vdb edb : Db) (u : UserDoc) (rest : List UserDoc)
    (hfind : vdb.findByKey (env.appPublicKey.getD "") = u :: rest) :
    (authOrRegister now env vdb edb).2.users.map
        (fun v => (v.id, v.lastLogin)) =
      edb.users.map (fun v => (v.id, v.lastLogin)) := by
  simp only [authOrRegister]
  rw [hfind]
  split
  · rfl
  · split
    · rfl
    · split
      · split
        · simp only [Db.updateById, List.map_map]
          apply List.map_congr_left
          intro a _
          simp only [Function.comp_apply]
          split <;> rfl
        · rfl
      · next x heq => simp at heq

/-! Claim theorems. -/

/-- C1: the claim says an envelope whose signature does not verify is
rejected with an InvalidSignature error before any User Directory access.
The source never implements signature verification (the check is a TODO in
every handler): a registration envelope carrying an arbitrary, unverifiable
signature is accepted (HTTP 201) and a user record is created, and no
handler can ever answer with an INVALID_SIGNATURE code. -/
theorem signature_never_checked :
    (register 1000 none regEnvGarbageSig regDbEmpty).1.status = 201 ∧
    (register 1000 none regEnvGarbageSig regDbEmpty).1.success = true ∧
    (register 1000 none regEnvGarbageSig regDbEmpty).2.users.length = 1 ∧
    (∀ (now : Int) (d : Option String) (env : RegEnv) (db : RegDb),
      ((register now d env db).1.code == some "INVALID_SIGNATURE") =
        false) ∧
    (∀ (now : Int) (env : AuthEnv) (vdb edb : Db),
      ((authOrRegister now env vdb edb).1.code ==
        some "INVALID_SIGNATURE") = false) ∧
    (∀ (now : Int) (env : GrantEnv) (db : Db),
      ((grantUserRole now env db).1.code == some "INVALID_SIGNATURE") =
        false) ∧
    (∀ (now : Int) (env : AuthnEnv) (db : RegDb),
      ((authenticate now env db).1.code == some "INVALID_SIGNATURE") =
        false) := by
  refine ⟨by decide, by decide, by decide, ?_, ?_, ?_, ?_⟩
  · intro now d env db
    unfold register
    repeat' first | split | simp
  · intro now env vdb edb
    unfold authOrRegister
    repeat' first | split | simp
  · intro now env db
    unfold grantUserRole
    repeat' first | split | simp
  · intro now env db
    unfold authenticate
    repeat' first | split | simp

/-- C2: with all required fields present, both the auth-or-register handler
and the register handler answer 400 EXPIRED_REQUEST exactly when the
absolute difference between server time and the envelope timestamp exceeds
300000 ms; the window is symmetric in the sign of the difference. -/
theorem expired_request_exactly_beyond_window
    (now : Int) (env : AuthEnv) (db : Db) (d : Option String)
    (renv : RegEnv) (rdb : RegDb)
    (h1 : truthyS env.appPublicKey = true)
    (h2 : truthyI env.timestamp = true)
    (h3 : truthyS env.signature = true)
    (h4 : truthyS renv.bsvAddress = true)
    (h5 : truthyS renv.appPublicKey = true)
    (h6 : truthyS renv.signature = true)
    (h7 : truthyI renv.timestamp = true) :
    (((authOrRegisterRun now env db).1.code = some "EXPIRED_REQUEST" ∧
      (authOrRegisterRun now env db).1.status = 400) ↔
       300000 < (now - env.timestamp.getD 0).natAbs) ∧
    (((register now d renv rdb).1.code = some "EXPIRED_REQUEST" ∧
      (register now d renv rdb).1.status = 400) ↔
       300000 < (now - renv.timestamp.getD 0).natAbs) := by
  constructor
  · unfold authOrRegisterRun authOrRegister
    rw [h1, h2, h3]
    simp only [Bool.and_self, Bool.not_true, Bool.false_eq_true, if_false]
    split
    · next hc => simp_all
    · next hc => repeat' first | split | simp [hc]
  · unfold register
    rw [h4, h5, h6, h7]
    simp only [Bool.and_self, Bool.not_true, Bool.false_eq_true, if_false]
    split
    · next hc => simp_all
    · next hc => repeat' first | split | simp [hc]

/-- Witness for C2: at server time 1000000, an envelope stamped 699999
(300001 ms in the past) is rejected as expired by both handlers. -/
theorem expired_request_exactly_beyond_window_witness :
    (authOrRegisterRun 1000000 authEnvStale dbEmpty).1.code =
      some "EXPIRED_REQUEST" ∧
    (register 1000000 none regEnvStale regDbEmpty).1.code =
      some "EXPIRED_REQUEST" :=
  ⟨((expired_request_exactly_beyond_window 1000000 authEnvStale dbEmpty
      none regEnvStale regDbEmpty (by decide) (by decide) (by decide)
      (by decide) (by decide) (by decide) (by decide)).1.mpr
      (by decide)).1,
   ((expired_request_exactly_beyond_window 1000000 authEnvStale dbEmpty
      none regEnvStale regDbEmpty (by decide) (by decide) (by decide)
      (by decide) (by decide) (by decide) (by decide)).2.mpr
      (by decide)).1⟩

/-- C7: an auth-or-register or register envelope missing a required field
(by JavaScript truthiness) is answered 400 MISSING_FIELDS, with the
response fixed independently of any database state and the database
returned unchanged: no User Directory access happens. -/
theorem missing_fields_no_directory_access :
    (∀ (now : Int) (env : AuthEnv) (vdb edb : Db),
      (truthyS env.appPublicKey && truthyI env.timestamp &&
       truthyS env.signature) = false →
      authOrRegister now env vdb edb =
        ({ status := 400, success := false,
           code := some "MISSING_FIELDS" }, edb)) ∧
    (∀ (now : Int) (d : Option String) (env : RegEnv) (db : RegDb),
      (truthyS env.bsvAddress && truthyS env.appPublicKey &&
       truthyS env.signature && truthyI env.timestamp) = false →
      register now d env db =
        ({ status := 400, success := false,
           code := some "MISSING_FIELDS" }, db)) :=
  ⟨fun now env vdb edb h => authOrRegister_missing now env vdb edb h,
   fun now d env db h => register_missing now d env db h⟩

/-- Witness for C7: an envelope without a signature is rejected with
MISSING_FIELDS by both handlers, leaving the database untouched. -/
theorem missing_fields_no_directory_access_witness :
    authOrRegister 1000 { authEnvA with signature := none } dbEmpty
      dbEmpty =
      ({ status := 400, success := false, code := some "MISSING_FIELDS" },
       dbEmpty) ∧
    register 1000 none { regEnvGarbageSig with signature := none }
      regDbEmpty =
      ({ status := 400, success := false, code := some "MISSING_FIELDS" },
       regDbEmpty) :=
  ⟨missing_fields_no_directory_access.1 1000
     { authEnvA with signature := none } dbEmpty dbEmpty (by decide),
   missing_fields_no_directory_access.2 1000 none
     { regEnvGarbageSig with signature := none } regDbEmpty (by decide)⟩

/-- C10: a required field that is present but falsy, the timestamp 0 or an
empty string, is treated as missing: the handlers answer MISSING_FIELDS
without reaching the freshness check, because required-field presence is
decided by JavaScript truthiness. -/
theorem falsy_fields_rejected_as_missing :
    (∀ (now : Int) (env : AuthEnv) (vdb edb : Db),
      env.timestamp = some 0 ∨ env.appPublicKey = some "" ∨
        env.signature = some "" →
      authOrRegister now env vdb edb =
        ({ status := 400, success := false,
           code := some "MISSING_FIELDS" }, edb)) ∧
    (∀ (now : Int) (d : Option String) (env : RegEnv) (db : RegDb),
      env.timestamp = some 0 ∨ env.bsvAddress = some "" ∨
        env.appPublicKey = some "" ∨ env.signature = some "" →
      register now d env db =
        ({ status := 400, success := false,
           code := some "MISSING_FIELDS" }, db)) := by
  constructor
  · intro now env vdb edb h
    apply authOrRegister_missing
    rcases h with h | h | h <;> simp [h, truthyS, truthyI]
  · intro now d env db h
    apply register_missing
    rcases h with h | h | h | h <;> simp [h, truthyS, truthyI]

/-- Witness for C10: an envelope whose timestamp field is present but 0 is
rejected as MISSING_FIELDS by both handlers. -/
theorem falsy_fields_rejected_as_missing_witness :
    authOrRegister 1000 { authEnvA with timestamp := some 0 } dbEmpty
      dbEmpty =
      ({ status := 400, success := false, code := some "MISSING_FIELDS" },
       dbEmpty) ∧
    register 1000 none { regEnvGarbageSig with timestamp := some 0 }
      regDbEmpty =
      ({ status := 400, success := false, code := some "MISSING_FIELDS" },
       regDbEmpty) :=
  ⟨falsy_fields_rejected_as_missing.1 1000
     { authEnvA with timestamp := some 0 } dbEmpty dbEmpty (Or.inl rfl),
   falsy_fields_rejected_as_missing.2 1000 none
     { regEnvGarbageSig with timestamp := some 0 } regDbEmpty
     (Or.inl rfl)⟩

/-- C3: the claim says a registration whose create hits a DuplicateKey
error (lost race) is retried as a lookup and answered successfully with
isNewUser false. In the source the createDocument call of the
auth-or-register handler has no DuplicateKey handling: the error falls
through to the outer catch, which answers HTTP 500 with code AUTH_ERROR.
Interleaving two identical registrations so that the loser's lookup reads
the snapshot from before the winner's create, the loser's create violates
the unique appPublicKey index and the loser receives the 500, not a
success. -/
theorem duplicate_create_surfaces_500 :
    (authOrRegister 1000 authEnvA dbEmpty dbEmpty).1.success = true ∧
    (authOrRegister 1000 authEnvA dbEmpty dbEmpty).1.isNewUser =
      some true ∧
    (authOrRegister 1000 authEnvA dbEmpty
      (authOrRegister 1000 authEnvA dbEmpty dbEmpty).2).1 =
      { status := 500, success := false, code := some "AUTH_ERROR" } ∧
    (authOrRegister 1000 authEnvA dbEmpty
      (authOrRegister 1000 authEnvA dbEmpty dbEmpty).2).2 =
      (authOrRegister 1000 authEnvA dbEmpty dbEmpty).2 ∧
    (authOrRegister 1000 authEnvA dbEmpty dbEmpty).2.users.length = 1 := by
  decide

/-- C4: submitting the same valid envelope twice sequentially to the
auth-or-register flow creates exactly one user record: the first run
registers (isNewUser true), the second lands on the Found path, answers
success with isNewUser false, leaves the database unchanged, and exactly
one record for the key exists afterwards. -/
theorem idempotent_registration (now1 now2 : Int) (env : AuthEnv) (db : Db)
    (h1 : truthyS env.appPublicKey = true)
    (h2 : truthyI env.timestamp = true)
    (h3 : truthyS env.signature = true)
    (hf1 : (now1 - env.timestamp.getD 0).natAbs ≤ 300000)
    (hf2 : (now2 - env.timestamp.getD 0).natAbs ≤ 300000)
    (hkey : db.findByKey (env.appPublicKey.getD "") = [])
    (huser : truthyS env.username = true →
      db.findByUsername env.username = []) :
    (authOrRegisterRun now1 env db).1.success = true ∧
    (authOrRegisterRun now1 env db).1.isNewUser = some true ∧
    (authOrRegisterRun now2 env
      (authOrRegisterRun now1 env db).2).1.success = true ∧
    (authOrRegisterRun now2 env
      (authOrRegisterRun now1 env db).2).1.isNewUser = some false ∧
    (authOrRegisterRun now2 env (authOrRegisterRun now1 env db).2).2 =
      (authOrRegisterRun now1 env db).2 ∧
    ((authOrRegisterRun now2 env
        (authOrRegisterRun now1 env db).2).2.findByKey
      (env.appPublicKey.getD "")).length = 1 := by
  have hp := authOrRegister_creates now1 env db h1 h2 h3 hf1 hkey huser
  have hfind := findByKey_after_create env db hkey
  have hq := authOrRegister_reauth_created now2 env
    { users := db.users ++ [createdDoc env db.nextId],
      nextId := db.nextId + 1 } db.nextId [] h1 h2 h3 hf2 hfind
  simp [hp, hq, hfind]

/-- Witness for C4: the envelope authEnvA registered against an empty
directory and replayed is answered with isNewUser true then false, and one
record for the key remains. -/
theorem idempotent_registration_witness :
    (authOrRegisterRun 1000 authEnvA dbEmpty).1.isNewUser = some true ∧
    (authOrRegisterRun 2000 authEnvA
      (authOrRegisterRun 1000 authEnvA dbEmpty).2).1.isNewUser =
      some false ∧
    ((authOrRegisterRun 2000 authEnvA
        (authOrRegisterRun 1000 authEnvA dbEmpty).2).2.findByKey
      (authEnvA.appPublicKey.getD "")).length = 1 :=
  ⟨(idempotent_registration 1000 2000 authEnvA dbEmpty (by decide)
      (by decide) (by decide) (by decide) (by decide) (by decide)
      (by decide)).2.1,
   (idempotent_registration 1000 2000 authEnvA dbEmpty (by decide)
      (by decide) (by decide) (by decide) (by decide) (by decide)
      (by decide)).2.2.2.1,
   (idempotent_registration 1000 2000 authEnvA dbEmpty (by decide)
      (by decide) (by decide) (by decide) (by decide) (by decide)
      (by decide)).2.2.2.2.2⟩

/-- C5: for a well-formed, fresh self-service role-grant request from a
registered caller: when no record holds the admin role the grant succeeds
for any caller (bootstrap); when an admin exists and the caller holds no
admin role the request is answered 403 UNAUTHORIZED; when the caller holds
admin the grant succeeds. -/
theorem grant_bootstrap_then_admin_only (now : Int) (env : GrantEnv)
    (db : Db) (u : UserDoc) (rest : List UserDoc)
    (h1 : truthyS env.appPublicKey = true)
    (h2 : truthyS env.role = true)
    (h3 : truthyI env.timestamp = true)
    (h4 : truthyS env.signature = true)
    (hrole : validRoles.contains (env.role.getD "") = true)
    (hfresh : (now - env.timestamp.getD 0).natAbs ≤ 300000)
    (hfind : db.findByKey (env.appPublicKey.getD "") = u :: rest) :
    (hasExistingAdmin db = false →
      (grantUserRole now env db).1.status = 200 ∧
      (grantUserRole now env db).1.success = true) ∧
    (hasExistingAdmin db = true →
      (u.roles.getD []).contains "admin" = false →
      (grantUserRole now env db).1.status = 403 ∧
      (grantUserRole now env db).1.code = some "UNAUTHORIZED") ∧
    ((u.roles.getD []).contains "admin" = true →
      (grantUserRole now env db).1.status = 200 ∧
      (grantUserRole now env db).1.success = true) := by
  refine ⟨fun hno => ?_, fun hyes hnotadm => ?_, fun hadm => ?_⟩
  · simp only [grantUserRole]
    rw [h1, h2, h3, h4, hrole]
    simp only [Bool.and_self, Bool.not_true, Bool.false_eq_true, if_false]
    rw [if_neg (by omega), hfind]
    simp [hno]
  · have hnotadm2 : "admin" ∉ u.roles.getD [] := by simpa using hnotadm
    simp only [grantUserRole]
    rw [h1, h2, h3, h4, hrole]
    simp only [Bool.and_self, Bool.not_true, Bool.false_eq_true, if_false]
    rw [if_neg (by omega), hfind]
    simp [hyes, hnotadm2]
  · have hadm2 : "admin" ∈ u.roles.getD [] := by simpa using hadm
    simp only [grantUserRole]
    rw [h1, h2, h3, h4, hrole]
    simp only [Bool.and_self, Bool.not_true, Bool.false_eq_true, if_false]
    rw [if_neg (by omega), hfind]
    simp [hadm2]

/-- Witness for C5: with no admin anywhere, a roleless caller self-grants
admin (200); a roleless caller is refused (403) once another record holds
admin; a caller already holding admin succeeds (200). -/
theorem grant_bootstrap_then_admin_only_witness :
    (grantUserRole 1000 grantEnvAdmin
      { users := [userNoRoles], nextId := 1 }).1.status = 200 ∧
    (grantUserRole 1000 grantEnvAdmin
      { users := [userNoRoles, userOtherAdmin], nextId := 2 }).1.status =
      403 ∧
    (grantUserRole 1000 grantEnvAdmin
      { users := [userSelfAdmin], nextId := 1 }).1.status = 200 :=
  ⟨((grant_bootstrap_then_admin_only 1000 grantEnvAdmin
      { users := [userNoRoles], nextId := 1 } userNoRoles [] (by decide)
      (by decide) (by decide) (by decide) (by decide) (by decide)
      (by decide)).1 (by decide)).1,
   ((grant_bootstrap_then_admin_only 1000 grantEnvAdmin
      { users := [userNoRoles, userOtherAdmin], nextId := 2 } userNoRoles
      [] (by decide) (by decide) (by decide) (by decide) (by decide)
      (by decide) (by decide)).2.1 (by decide) (by decide)).1,
   ((grant_bootstrap_then_admin_only 1000 grantEnvAdmin
      { users := [userSelfAdmin], nextId := 1 } userSelfAdmin []
      (by decide) (by decide) (by decide) (by decide) (by decide)
      (by decide) (by decide)).2.2 (by decide)).1⟩

/-- C6: on the registration path a supplied username already held by some
record (necessarily a different one, the caller's key being unknown) is
answered 409 USERNAME_TAKEN with no record created; an already-registered
caller re-submitting with the record's own username lands on the Found
path and succeeds. -/
theorem username_taken_conflict (now : Int) (env : AuthEnv) (db : Db)
    (h1 : truthyS env.appPublicKey = true)
    (h2 : truthyI env.timestamp = true)
    (h3 : truthyS env.signature = true)
    (hfresh : (now - env.timestamp.getD 0).natAbs ≤ 300000) :
    (db.findByKey (env.appPublicKey.getD "") = [] →
      truthyS env.username = true →
      db.findByUsername env.username ≠ [] →
      (authOrRegisterRun now env db).1.status = 409 ∧
      (authOrRegisterRun now env db).1.code = some "USERNAME_TAKEN" ∧
      (authOrRegisterRun now env db).2 = db) ∧
    (∀ (u : UserDoc) (rest : List UserDoc),
      db.findByKey (env.appPublicKey.getD "") = u :: rest →
      u.username = env.username →
      (authOrRegisterRun now env db).1.success = true ∧
      (authOrRegisterRun now env db).1.isNewUser = some false) := by
  constructor
  · intro hkey hu htaken
    have hne : (db.findByUsername env.username).isEmpty = false := by
      cases hL : db.findByUsername env.username with
      | nil => exact absurd hL htaken
      | cons a l => rfl
    unfold authOrRegisterRun authOrRegister
    rw [h1, h2, h3]
    simp only [Bool.and_self, Bool.not_true, Bool.false_eq_true, if_false]
    rw [if_neg (by omega), hkey]
    simp [hu, hne]
  · intro u rest hfind _
    exact ⟨(authOrRegister_found_success now env db u rest h1 h2 h3
        hfresh hfind).1,
      (authOrRegister_found_success now env db u rest h1 h2 h3
        hfresh hfind).2.1⟩

/-- Witness for C6: registering key pk1 with username alice while a record
under key pk2 holds alice is refused 409 and writes nothing; the record
that owns alice under pk1 re-submitting the same envelope succeeds. -/
theorem username_taken_conflict_witness :
    ((authOrRegisterRun 1000 authEnvA
        { users := [userAliceOtherKey], nextId := 8 }).1.code =
      some "USERNAME_TAKEN" ∧
     (authOrRegisterRun 1000 authEnvA
        { users := [userAliceOtherKey], nextId := 8 }).2 =
      { users := [userAliceOtherKey], nextId := 8 }) ∧
    (authOrRegisterRun 1000 authEnvA
      { users := [userNoRoles], nextId := 1 }).1.success = true :=
  ⟨⟨((username_taken_conflict 1000 authEnvA
        { users := [userAliceOtherKey], nextId := 8 } (by decide)
        (by decide) (by decide) (by decide)).1 (by decide) (by decide)
        (by decide)).2.1,
    ((username_taken_conflict 1000 authEnvA
        { users := [userAliceOtherKey], nextId := 8 } (by decide)
        (by decide) (by decide) (by decide)).1 (by decide) (by decide)
        (by decide)).2.2⟩,
   ((username_taken_conflict 1000 authEnvA
        { users := [userNoRoles], nextId := 1 } (by decide) (by decide)
        (by decide) (by decide)).2 userNoRoles [] (by decide)
        (by decide)).1⟩

/-- C8 counterexample: the claim says every successful authentication of an
existing user, in the auth-or-register flow too, updates the stored
record's lastLogin before returning. A successful auth-or-register
authentication of the user stored in dbOneUser leaves the database, and in
particular the record's absent lastLogin, entirely unchanged. -/
theorem authOrRegister_found_no_lastLogin_update :
    (authOrRegisterRun 2000 authEnvBare
      { users := [userNoRoles], nextId := 1 }).1.success = true ∧
    (authOrRegisterRun 2000 authEnvBare
      { users := [userNoRoles], nextId := 1 }).1.isNewUser = some false ∧
    (authOrRegisterRun 2000 authEnvBare
      { users := [userNoRoles], nextId := 1 }).2 =
      { users := [userNoRoles], nextId := 1 } ∧
    userNoRoles.lastLogin = none := by
  decide

/-- C8 amended: only the dedicated authenticate flow updates the stored
record's lastLogin on a successful authentication; the auth-or-register
Found path writes at most profile fields and leaves every record's
lastLogin (paired with its id) as it was. -/
theorem lastLogin_updated_only_by_authenticate :
    (∀ (now : Int) (env : AuthnEnv) (db : RegDb) (u : RegUser)
      (rest : List RegUser),
      truthyS env.bsvAddress = true → truthyS env.appPublicKey = true →
      truthyI env.timestamp = true → truthyS env.signature = true →
      (now - env.timestamp.getD 0).natAbs ≤ 300000 →
      db.findByAddress (env.bsvAddress.getD "") = u :: rest →
      u.appPublicKey = env.appPublicKey.getD "" →
      (authenticate now env db).1.success = true ∧
      { u with lastLogin := some now } ∈ (authenticate now env db).2.users) ∧
    (∀ (now : Int) (env : AuthEnv) (vdb edb : Db) (u : UserDoc)
      (rest : List UserDoc),
      vdb.findByKey (env.appPublicKey.getD "") = u :: rest →
      (authOrRegister now env vdb edb).2.users.map
          (fun v => (v.id, v.lastLogin)) =
        edb.users.map (fun v => (v.id, v.lastLogin))) := by
  constructor
  · intro now env db u rest h1 h2 h3 h4 hfresh hfind hk
    have hbeq : (u.appPublicKey == env.appPublicKey.getD "") = true := by
      simp [hk]
    have humem : u ∈ db.users := by
      have : u ∈ db.findByAddress (env.bsvAddress.getD "") := by
        rw [hfind]; exact List.mem_cons_self u rest
      exact (List.mem_filter.mp this).1
    unfold authenticate
    rw [h1, h2, h3, h4]
    simp only [Bool.and_self, Bool.not_true, Bool.false_eq_true, if_false]
    rw [if_neg (by omega), hfind]
    constructor
    · simp [hbeq]
    · simp only [hbeq, Bool.not_true, Bool.false_eq_true, if_false]
      exact List.mem_map.mpr ⟨u, humem, by simp⟩
  · intro now env vdb edb u rest hfind
    exact authOrRegister_keeps_lastLogin now env vdb edb u rest hfind

/-- Witness for C8 amended: the authenticate handler stamps lastLogin 2000
on the record it authenticates, while the auth-or-register Found path run
at time 2000 preserves the record's id and lastLogin pairs. -/
theorem lastLogin_updated_only_by_authenticate_witness :
    ({ regUserA with lastLogin := some 2000 } ∈
      (authenticate 2000 authnEnvAddr1
        { users := [regUserA], roleGrants := [], nextId := 1 }).2.users) ∧
    (authOrRegister 2000 authEnvBare { users := [userNoRoles], nextId := 1 }
        { users := [userNoRoles], nextId := 1 }).2.users.map
        (fun v => (v.id, v.lastLogin)) =
      ({ users := [userNoRoles], nextId := 1 } : Db).users.map
        (fun v => (v.id, v.lastLogin)) :=
  ⟨(lastLogin_updated_only_by_authenticate.1 2000 authnEnvAddr1
      { users := [regUserA], roleGrants := [], nextId := 1 } regUserA []
      (by decide) (by decide) (by decide) (by decide) (by decide)
      (by decide) (by decide)).2,
   lastLogin_updated_only_by_authenticate.2 2000 authEnvBare
      { users := [userNoRoles], nextId := 1 }
      { users := [userNoRoles], nextId := 1 } userNoRoles []
      (by decide)⟩

/-- C9 counterexample: the claim says every record created by a
registration path carries a non-empty baseline role. The registration path
of the auth-or-register handler creates its user document without any
roles value: registering a fresh key against an empty directory succeeds
and the single created record has roles none. -/
theorem authOrRegister_creates_roleless_record :
    (authOrRegisterRun 1000 authEnvA dbEmpty).1.success = true ∧
    (authOrRegisterRun 1000 authEnvA dbEmpty).1.isNewUser = some true ∧
    (authOrRegisterRun 1000 authEnvA dbEmpty).2.users.map
      (fun u => u.roles) = [none] := by
  decide

/-- C9 amended: a record created by the register-metanet-user handler
carries a non-empty role (the configured default, falling back to user)
and isActive true; a record created by the auth-or-register handler
carries no roles value at all, its status filled with active only by the
collection's schema default. -/
theorem created_record_role_and_status :
    (∀ (now : Int) (d : Option String) (env : RegEnv) (db : RegDb),
      truthyS env.bsvAddress = true → truthyS env.appPublicKey = true →
      truthyS env.signature = true → truthyI env.timestamp = true →
      (now - env.timestamp.getD 0).natAbs ≤ 300000 →
      db.findByAddress (env.bsvAddress.getD "") = [] →
      db.findByKey (env.appPublicKey.getD "") = [] →
      ∃ u : RegUser, (register now d env db).2.users = db.users ++ [u] ∧
        (u.role == "") = false ∧ u.isActive = true) ∧
    (∀ (now : Int) (env : AuthEnv) (db : Db),
      truthyS env.appPublicKey = true → truthyI env.timestamp = true →
      truthyS env.signature = true →
      (now - env.timestamp.getD 0).natAbs ≤ 300000 →
      db.findByKey (env.appPublicKey.getD "") = [] →
      (truthyS env.username = true →
        db.findByUsername env.username = []) →
      ∃ u : UserDoc,
        (authOrRegisterRun now env db).2.users = db.users ++ [u] ∧
        u.roles = none ∧ u.status = some "active") := by
  constructor
  · intro now d env db h1 h2 h3 h4 hfresh haddr hkey
    have hrole : ((if truthyS d = true then d.getD "" else "user") == "") =
        false := by
      cases hd : truthyS d with
      | false => simp
      | true =>
        rw [if_pos rfl]
        cases d with
        | none => simp [truthyS] at hd
        | some s => simpa [truthyS] using hd
    simp only [register]
    rw [h1, h2, h3, h4]
    simp only [Bool.and_self, Bool.not_true, Bool.false_eq_true, if_false]
    rw [if_neg (by omega), haddr, hkey]
    simp only [List.isEmpty_nil, Bool.not_true, Bool.false_eq_true,
      if_false]
    exact ⟨_, rfl, hrole, rfl⟩
  · intro now env db h1 h2 h3 hfresh hkey huser
    refine ⟨createdDoc env db.nextId, ?_, rfl, rfl⟩
    rw [authOrRegister_creates now env db h1 h2 h3 hfresh hkey huser]

/-- Witness for C9 amended: the register handler run on regEnvGarbageSig
appends a record with role user and isActive true; the auth-or-register
handler run on authEnvA appends a record with roles none and status
active. -/
theorem created_record_role_and_status_witness :
    (∃ u : RegUser,
      (register 1000 none regEnvGarbageSig regDbEmpty).2.users =
        regDbEmpty.users ++ [u] ∧ (u.role == "") = false ∧
        u.isActive = true) ∧
    (∃ u : UserDoc,
      (authOrRegisterRun 1000 authEnvA dbEmpty).2.users =
        dbEmpty.users ++ [u] ∧ u.roles = none ∧
        u.status = some "active") :=
  ⟨created_record_role_and_status.1 1000 none regEnvGarbageSig regDbEmpty
     (by decide) (by decide) (by decide) (by decide) (by decide)
     (by decide) (by decide),
   created_record_role_and_status.2 1000 authEnvA dbEmpty (by decide)
     (by decide) (by decide) (by decide) (by decide) (by decide)⟩

end MetanetScaffold
